import Mathlib

/-!
Verification development for the error-handling / retry subsystem and the
authentication service wrapper of the react-native-template-tamagui-cognito
repository.

The TypeScript sources embedded here:
  - `src/types/errors.ts` : `ErrorCategory`, `ErrorSeverity`, `StructuredError`,
    `RetryConfig` (enums and record shapes);
  - `src/utils/errorLogger.ts` : the `ErrorLogger` class (throttle window,
    capped FIFO queue, stats, id generation, message hashing);
  - `src/utils/asyncErrorHandler.ts` : `handleAsyncWithRetry` (retry loop with
    capped exponential backoff);
  - `src/services/auth.ts` : `formatError`, `cognitoUserToUser`,
    `isAuthenticated`, `getCurrentUser`.

Modelling conventions:
  - JavaScript time (`Date.now()`) is a `Nat` millisecond clock passed in
    explicitly; `Math.random()`-derived suffixes are an explicit `String`
    parameter.  JS `now - lastSeen > window` agrees with truncated `Nat`
    subtraction: when `now < lastSeen` both sides refuse the reset branch.
  - Numeric delay quantities (JS `number`) are modelled as `ℚ`; all values
    involved (defaults 1000, 10000, 2 and their products) are exact in both
    binary floating point and `ℚ`, so `min`/`*`/`^` commute with the model.
  - Promise-returning operations are modelled as pure functions
    `Nat → Except E T` giving the outcome of each invocation in order;
    `throw` is the `Except.error` result.
  - Console output, remote-logging queueing and device/platform context
    enrichment are I/O with no effect on the logger's observable state
    (queue, counts, returned id) and are not part of the state model.
-/

/-- `ErrorCategory` enum from `src/types/errors.ts` (five members). -/
inductive ErrorCategory where
  | UI_ERROR
  | API_ERROR
  | NAVIGATION_ERROR
  | PERFORMANCE_ERROR
  | UNHANDLED_ERROR
deriving DecidableEq, Repr

/-- `ErrorSeverity` enum from `src/types/errors.ts` (four members). -/
inductive ErrorSeverity where
  | LOW
  | MEDIUM
  | HIGH
  | CRITICAL
deriving DecidableEq, Repr

/-- A JavaScript `Error`-like value as the logger and `formatError` consume it:
`name`, `message`, an optional Cognito `code` (absent encoded as `""`, the
falsy value a missing field shares with the empty string under JS `||`), and
an optional `stack`. -/
structure JSError where
  name : String
  message : String
  code : String
  stack : Option String
deriving DecidableEq, Repr

/-- `StructuredError` from `src/types/errors.ts`, restricted to the fields the
logger computes from its inputs.  The JS record additionally embeds the raw
`Error` object and an enriched `context` (ISO timestamp, platform, metadata),
which are environment snapshots never read back by the logger. -/
structure StructuredError where
  id : String
  message : String
  category : ErrorCategory
  severity : ErrorSeverity
  stackTrace : Option String
  retryable : Bool
deriving DecidableEq, Repr

/-- One value of the `errorCounts` map in `ErrorLogger`:
`{ count: number; lastSeen: number }`. -/
structure ThrottleEntry where
  count : Nat
  lastSeen : Nat
deriving DecidableEq, Repr

/-- The mutable state of the `ErrorLogger` singleton: `errorQueue` and the
`errorCounts` map (modelled as an association list keyed by the hashed
message, JS `Map` insertion order preserved). -/
structure ErrorLoggerState where
  errorQueue : List StructuredError
  errorCounts : List (String × ThrottleEntry)
deriving DecidableEq, Repr

/-- `private readonly maxQueueSize = 100`. -/
def maxQueueSize : Nat := 100

/-- `private readonly throttleWindow = 5000`. -/
def throttleWindow : Nat := 5000

/-- The logger's initial state: empty queue, empty counts map. -/
def initialLoggerState : ErrorLoggerState := ⟨[], []⟩

/-- `Map.get` on the association list modelling `errorCounts`. -/
def lookupKey (k : String) : List (String × ThrottleEntry) → Option ThrottleEntry
  | [] => none
  | (k₁, v) :: rest => if k₁ = k then some v else lookupKey k rest

/-- `Map.set` on the association list modelling `errorCounts`: replaces the
binding in place when the key is present, appends it otherwise. -/
def mapSet (k : String) (v : ThrottleEntry) :
    List (String × ThrottleEntry) → List (String × ThrottleEntry)
  | [] => [(k, v)]
  | (k₁, v₁) :: rest =>
      if k₁ = k then (k, v) :: rest else (k₁, v₁) :: mapSet k v rest

/-- Truncation to a signed 32-bit integer, the effect of JS `hash & hash` and
of `<< 5` on a 32-bit operand. -/
def wrap32 (n : Int) : Int := (n + 2 ^ 31) % 2 ^ 32 - 2 ^ 31

/-- One step of `hashMessage`'s loop:
`hash = (hash << 5) - hash + char; hash = hash & hash`. -/
def hashStep (h : Int) (c : Nat) : Int := wrap32 (wrap32 (h * 2 ^ 5) - h + c)

/-- `private hashMessage(message)` from `errorLogger.ts`: the classic shift
hash over the message's code units, rendered as a decimal string.
(`charCodeAt` is modelled by `Char.toNat`, exact on the Basic Multilingual
Plane.) -/
def hashMessage (s : String) : String :=
  toString ((s.data.map Char.toNat).foldl hashStep 0)

/-- `private generateErrorId()`:
`` `err_${Date.now()}_${Math.random().toString(36).substr(2, 9)}` ``, with the
clock and the random suffix as explicit parameters. -/
def generateErrorId (now : Nat) (rand : String) : String :=
  "err_" ++ toString now ++ "_" ++ rand

/-- `sub.isPrefixOf l || hasSub sub rest`: JS `String.prototype.includes`
over code-unit lists. -/
def hasSub (sub : List Char) : List Char → Bool
  | [] => sub.isEmpty
  | c :: rest => List.isPrefixOf sub (c :: rest) || hasSub sub rest

/-- JS `message.includes(pat)`. -/
def containsSub (s pat : String) : Bool := hasSub pat.data s.data

/-- `private isRetryableError(error, category)` from `errorLogger.ts`. -/
def isRetryableError (error : JSError) (category : ErrorCategory) : Bool :=
  match category with
  | ErrorCategory.API_ERROR =>
      !(containsSub error.message "401") && !(containsSub error.message "403")
  | ErrorCategory.UI_ERROR => false
  | _ => false

/-- `private shouldThrottleError(message)` from `errorLogger.ts`, as a state
transition on `errorCounts` (it mutates the map even when it answers `true`):
returns the throttle decision and the updated map. -/
def shouldThrottleError (counts : List (String × ThrottleEntry))
    (message : String) (now : Nat) : Bool × List (String × ThrottleEntry) :=
  let key := hashMessage message
  match lookupKey key counts with
  | none => (false, mapSet key ⟨1, now⟩ counts)
  | some d =>
      if throttleWindow < now - d.lastSeen then
        (false, mapSet key ⟨1, now⟩ counts)
      else
        (decide (3 < d.count + 1), mapSet key ⟨d.count + 1, now⟩ counts)

/-- `private recordError(error)` from `errorLogger.ts`: push onto the queue,
then drop the oldest entry (`shift`) when the size cap is exceeded. -/
def recordError (queue : List StructuredError) (e : StructuredError) :
    List StructuredError :=
  let queue₁ := queue ++ [e]
  if maxQueueSize < queue₁.length then queue₁.tail else queue₁

/-- `public logError(error, category, severity, context)` from
`errorLogger.ts`: builds the structured record, consults the throttle (whose
map update always happens), records the error only when not throttled, and
returns the generated id in every case.  Console/remote logging is I/O and
does not touch the state. -/
def logError (error : JSError) (category : ErrorCategory)
    (severity : ErrorSeverity) (now : Nat) (rand : String)
    (st : ErrorLoggerState) : String × ErrorLoggerState :=
  let errorId := generateErrorId now rand
  let structuredError : StructuredError :=
    { id := errorId
      message := error.message
      category := category
      severity := severity
      stackTrace := error.stack
      retryable := isRetryableError error category }
  let throttle := shouldThrottleError st.errorCounts error.message now
  if throttle.1 then
    (errorId, { st with errorCounts := throttle.2 })
  else
    (errorId,
      { errorQueue := recordError st.errorQueue structuredError
        errorCounts := throttle.2 })

/-- The record returned by `public getErrorStats()`. -/
structure ErrorStats where
  totalErrors : Nat
  categories : ErrorCategory → Nat

/-- The `forEach` accumulation inside `getErrorStats`:
`categories[error.category] = (categories[error.category] || 0) + 1`,
with the absent-key default 0 folded into the function representation. -/
def categoriesCount (queue : List StructuredError) : ErrorCategory → Nat :=
  queue.foldl
    (fun acc e => fun c => if c = e.category then acc c + 1 else acc c)
    (fun _ => 0)

/-- `public getErrorStats()` from `errorLogger.ts`. -/
def getErrorStats (queue : List StructuredError) : ErrorStats :=
  { totalErrors := queue.length
    categories := categoriesCount queue }

/-- Driver folding a sequence of same-message `logError` throttle decisions
through `shouldThrottleError`, counting how many calls are recorded
(not throttled).  `times` are the successive `Date.now()` values. -/
def throttleRun (message : String) (counts : List (String × ThrottleEntry)) :
    List Nat → Nat × List (String × ThrottleEntry)
  | [] => (0, counts)
  | now :: rest =>
      let step := shouldThrottleError counts message now
      let tail₁ := throttleRun message step.2 rest
      ((if step.1 then 0 else 1) + tail₁.1, tail₁.2)

/-- `RetryConfig` from `src/types/errors.ts`.  `maxRetries` is a retry count;
the delay parameters (JS `number`) are modelled as `ℚ`. -/
structure RetryConfig where
  maxRetries : Nat
  baseDelay : ℚ
  maxDelay : ℚ
  backoffMultiplier : ℚ
deriving DecidableEq, Repr

/-- `private readonly defaultRetryConfig` of `AsyncErrorHandler`:
`{ maxRetries: 3, baseDelay: 1000, maxDelay: 10000, backoffMultiplier: 2 }`. -/
def defaultRetryConfig : RetryConfig :=
  { maxRetries := 3, baseDelay := 1000, maxDelay := 10000,
    backoffMultiplier := 2 }

/-- The backoff computation of `handleAsyncWithRetry` for the (1-based) retry
number `attempt`, exactly as on its lines 122–125:
`Math.min(config.baseDelay * Math.pow(config.backoffMultiplier, attempt - 1), config.maxDelay)`
(the loop computes it right after `attempt++`, so `attempt` here is the
number of failures so far). -/
def retryDelay (cfg : RetryConfig) (attempt : Nat) : ℚ :=
  min (cfg.baseDelay * cfg.backoffMultiplier ^ (attempt - 1)) cfg.maxDelay

/-- The observable outcome of one `handleAsyncWithRetry` run: the value
returned or error thrown, how many times the operation was invoked, and the
successive backoff delays awaited between invocations. -/
structure RetryRun (E T : Type) where
  result : Except E T
  invocations : Nat
  delays : List ℚ

/-- The `while (attempt <= config.maxRetries)` loop of `handleAsyncWithRetry`,
restructured as recursion: `attempt` is the 0-based index of the current
invocation and `fuel = maxRetries - attempt` the number of retries still
allowed.  On success the loop returns; on failure with no fuel the loop
breaks and the last error is thrown; otherwise the backoff delay for retry
`attempt + 1` is awaited and the operation retried.  (The retry-progress
`errorLogger` calls inside the loop are logging side effects, not part of the
returned outcome.) -/
def retryLoop {E T : Type} (op : Nat → Except E T) (cfg : RetryConfig) :
    Nat → Nat → RetryRun E T
  | attempt, 0 =>
      match op attempt with
      | Except.ok v => ⟨Except.ok v, 1, []⟩
      | Except.error err => ⟨Except.error err, 1, []⟩
  | attempt, fuel + 1 =>
      match op attempt with
      | Except.ok v => ⟨Except.ok v, 1, []⟩
      | Except.error _ =>
          let rest := retryLoop op cfg (attempt + 1) fuel
          ⟨rest.result, rest.invocations + 1,
            retryDelay cfg (attempt + 1) :: rest.delays⟩

/-- `public handleAsyncWithRetry(operation, retryConfig, options)` from
`asyncErrorHandler.ts`: run the loop from `attempt = 0` with `maxRetries`
retries allowed. -/
def handleAsyncWithRetry {E T : Type} (op : Nat → Except E T)
    (cfg : RetryConfig) : RetryRun E T :=
  retryLoop op cfg 0 cfg.maxRetries

/-- `signInDetails` of an Amplify `AuthUser` (`loginId?: string`). -/
structure SignInDetails where
  loginId : Option String
deriving DecidableEq, Repr

/-- Amplify's `AuthUser`: `{ username: string; userId: string; signInDetails?: ... }`. -/
structure AuthUser where
  username : String
  userId : String
  signInDetails : Option SignInDetails
deriving DecidableEq, Repr

/-- `User` from `src/types/auth.ts` (`phoneNumber?: string` modelled with the
empty string for absent). -/
structure User where
  id : String
  email : String
  name : String
  emailVerified : Bool
  phoneNumber : String
  createdAt : String
  updatedAt : String
deriving DecidableEq, Repr

/-- `authService.cognitoUserToUser(cognitoUser)` from `src/services/auth.ts`.
`nowIso` is the ISO rendering of the clock at conversion time
(`new Date().toISOString()`), which the code uses for both timestamps;
`emailVerified` is the literal `true` and `phoneNumber` the literal `""`. -/
def cognitoUserToUser (u : AuthUser) (nowIso : String) : User :=
  { id := u.userId
    email := ((u.signInDetails.map SignInDetails.loginId).join).getD ""
    name := u.username
    emailVerified := true
    phoneNumber := ""
    createdAt := nowIso
    updatedAt := nowIso }

/-- The access token slot of an Amplify auth session
(`session.tokens?.accessToken`, the token itself left opaque). -/
structure AuthTokens where
  accessToken : Option String
deriving DecidableEq, Repr

/-- An Amplify `fetchAuthSession` result: `tokens` may be absent. -/
structure AuthSession where
  tokens : Option AuthTokens
deriving DecidableEq, Repr

/-- `authService.isAuthenticated()`: the argument is the outcome of the
`fetchAuthSession()` call (an `Except` whose error is the thrown value).  The
`try/catch` maps every thrown error to `false`; otherwise the JS truthiness
test `!!session.tokens?.accessToken` is `Option.isSome` of the chained
access. -/
def isAuthenticated (session : Except JSError AuthSession) : Bool :=
  match session with
  | Except.ok s => ((s.tokens.map AuthTokens.accessToken).join).isSome
  | Except.error _ => false

/-- `authService.getCurrentUser()`: the first argument is the outcome of the
Amplify `getCurrentUser()` call.  The `try/catch` maps every thrown error to
`null` (`none`); on success the Cognito user is converted. -/
def getCurrentUserService (provider : Except JSError AuthUser)
    (nowIso : String) : Option User :=
  match provider with
  | Except.ok u => some (cognitoUserToUser u nowIso)
  | Except.error _ => none

/-- The `errorMessages` record of `authService.formatError`: the static
user-facing lookup keyed by Cognito error codes. -/
def errorMessages (code : String) : Option String :=
  match code with
  | "UserNotFoundException" =>
      some "User not found. Please check your email and try again."
  | "NotAuthorizedException" => some "Incorrect email or password."
  | "UserNotConfirmedException" =>
      some "Please verify your email before signing in."
  | "CodeMismatchException" =>
      some "Invalid verification code. Please try again."
  | "ExpiredCodeException" =>
      some "Verification code has expired. Please request a new one."
  | "LimitExceededException" => some "Too many attempts. Please try again later."
  | "UsernameExistsException" =>
      some "An account with this email already exists."
  | "InvalidPasswordException" => some "Password does not meet requirements."
  | "TooManyRequestsException" =>
      some "Too many requests. Please wait before trying again."
  | "NetworkError" =>
      some "Network error. Please check your connection and try again."
  | _ => none

/-- `error.code || error.name` (absence and the empty string are both falsy). -/
def effectiveCode (e : JSError) : String :=
  if e.code = "" then e.name else e.code

/-- The generic fallback message of `formatError`. -/
def fallbackMessage : String := "An unexpected error occurred. Please try again."

/-- `authService.formatError(error)` from `src/services/auth.ts`, returning
the message of the `Error` it constructs:
`errorMessages[errorCode] || error.message || fallback` (every mapped string
is non-empty, so the JS `||` chain is exactly this match). -/
def formatError (e : JSError) : String :=
  match errorMessages (effectiveCode e) with
  | some m => m
  | none => if e.message = "" then fallbackMessage else e.message

/-- The four categories named by the specification sentence
"Tags each failure with a category (UI/API/Navigation/Performance)" —
stated from the spec's words, for comparison against the code's enum. -/
def specCategories : List ErrorCategory :=
  [ErrorCategory.UI_ERROR, ErrorCategory.API_ERROR,
   ErrorCategory.NAVIGATION_ERROR, ErrorCategory.PERFORMANCE_ERROR]

/-- All members of the code's `ErrorCategory` enum. -/
def allCategories : List ErrorCategory :=
  [ErrorCategory.UI_ERROR, ErrorCategory.API_ERROR,
   ErrorCategory.NAVIGATION_ERROR, ErrorCategory.PERFORMANCE_ERROR,
   ErrorCategory.UNHANDLED_ERROR]

/-- All members of the code's `ErrorSeverity` enum. -/
def allSeverities : List ErrorSeverity :=
  [ErrorSeverity.LOW, ErrorSeverity.MEDIUM, ErrorSeverity.HIGH,
   ErrorSeverity.CRITICAL]

/-- The category `setupGlobalHandlers` in `asyncErrorHandler.ts` tags every
unhandled rejection and global error with (`ErrorCategory.UNHANDLED_ERROR`,
lines 267 and 289). -/
def globalHandlerCategory : ErrorCategory := ErrorCategory.UNHANDLED_ERROR

/-- An operation that fails on every invocation, throwing the invocation
index as the error, for instantiating the retry theorems. -/
def opFail : Nat → Except Nat Unit := fun i => Except.error i

/-- A concrete queue entry for instantiating the queue theorems. -/
def dummyEntry : StructuredError :=
  { id := "err_0_r", message := "boom", category := ErrorCategory.UI_ERROR,
    severity := ErrorSeverity.LOW, stackTrace := none, retryable := false }

/-- A concrete logger state in which the message "boom" has already been seen
3 times in the current window (so a fourth call inside the window is
throttled), with one entry queued. -/
def throttledState : ErrorLoggerState :=
  { errorQueue := [dummyEntry]
    errorCounts := [(hashMessage "boom", ⟨3, 0⟩)] }

/-!  Theorems. -/

/-- Unfolding of `retryLoop` on an operation that fails on every invocation:
result, invocation count and delay list, generalized over the starting
attempt index and remaining fuel. -/
theorem retryLoop_always_fails {E T : Type} (op : Nat → Except E T)
    (cfg : RetryConfig) (e : Nat → E) (hop : ∀ i, op i = Except.error (e i)) :
    ∀ (fuel attempt : Nat),
      retryLoop op cfg attempt fuel =
        ⟨Except.error (e (attempt + fuel)), fuel + 1,
          (List.range fuel).map (fun i => retryDelay cfg (attempt + i + 1))⟩ := by
  intro fuel
  induction fuel with
  | zero =>
      intro attempt
      simp [retryLoop, hop attempt]
  | succ f ih =>
      intro attempt
      simp only [retryLoop, hop attempt]
      rw [ih (attempt + 1)]
      have harg : attempt + 1 + f = attempt + (f + 1) := by omega
      have hmap : ∀ i : Nat, attempt + 1 + i + 1 = attempt + (i + 1) + 1 :=
        fun i => by omega
      simp only [harg, List.range_succ_eq_map, List.map_cons, List.map_map,
        Function.comp_def, Nat.succ_eq_add_one, hmap, Nat.add_zero,
        Nat.zero_add]

/-- C1.  For every operation that fails on every invocation and every retry
configuration, `handleAsyncWithRetry` invokes the operation exactly
`maxRetries + 1` times (the initial attempt plus `maxRetries` retries) and
then throws exactly the error produced by the final invocation — it never
returns normally and never discards the last error. -/
theorem handleAsyncWithRetry_exhausts_retries :
    ∀ (E T : Type) (op : Nat → Except E T) (cfg : RetryConfig) (e : Nat → E),
      (∀ i, op i = Except.error (e i)) →
      (handleAsyncWithRetry op cfg).invocations = cfg.maxRetries + 1 ∧
      (handleAsyncWithRetry op cfg).result = Except.error (e cfg.maxRetries) := by
  intro E T op cfg e hop
  unfold handleAsyncWithRetry
  rw [retryLoop_always_fails op cfg e hop cfg.maxRetries 0]
  simp

/-- Witness for C1: the default configuration (3 retries) with an operation
throwing its invocation index performs 4 invocations and throws error 3, the
error of the final invocation. -/
theorem handleAsyncWithRetry_exhausts_retries_witness :
    (handleAsyncWithRetry opFail defaultRetryConfig).invocations = 4 ∧
    (handleAsyncWithRetry opFail defaultRetryConfig).result = Except.error 3 :=
  handleAsyncWithRetry_exhausts_retries Nat Unit opFail defaultRetryConfig
    (fun i => i) (fun _ => rfl)

/-- C2 counterexample.  The claim puts the delay before retry `a` at
`min(baseDelay · backoffMultiplier ^ a, maxDelay)` with `a = 1` for the
first retry.  Under the default configuration (base 1000, multiplier 2,
max 10000) the code waits 1000 ms before the first retry, while the claimed
formula gives `min(1000 · 2¹, 10000) = 2000`. -/
theorem handleAsyncWithRetry_delay_exponent_counterexample :
    (handleAsyncWithRetry opFail defaultRetryConfig).delays.head? = some 1000 ∧
    min (defaultRetryConfig.baseDelay *
          defaultRetryConfig.backoffMultiplier ^ (1 : ℕ))
        defaultRetryConfig.maxDelay = 2000 ∧
    (1000 : ℚ) ≠ 2000 := by
  refine ⟨?_, ?_, ?_⟩ <;>
    norm_num [handleAsyncWithRetry, retryLoop, retryDelay, defaultRetryConfig,
      opFail, min_def]

/-- C2 amended.  For an always-failing operation, the successive backoff
delays of `handleAsyncWithRetry` are
`min(baseDelay · backoffMultiplier ^ (a − 1), maxDelay)` for retry numbers
`a = 1, …, maxRetries` (here indexed by `a − 1` ranging over
`List.range maxRetries`). -/
theorem handleAsyncWithRetry_backoff_delays :
    ∀ (E T : Type) (op : Nat → Except E T) (cfg : RetryConfig) (e : Nat → E),
      (∀ i, op i = Except.error (e i)) →
      (handleAsyncWithRetry op cfg).delays =
        (List.range cfg.maxRetries).map
          (fun a => min (cfg.baseDelay * cfg.backoffMultiplier ^ a)
            cfg.maxDelay) := by
  intro E T op cfg e hop
  unfold handleAsyncWithRetry
  rw [retryLoop_always_fails op cfg e hop cfg.maxRetries 0]
  simp [retryDelay]

/-- Witness for C2 (amended): under the default configuration with an
always-failing operation the delays are the mapped formula concretely. -/
theorem handleAsyncWithRetry_backoff_delays_witness :
    (handleAsyncWithRetry opFail defaultRetryConfig).delays =
      (List.range defaultRetryConfig.maxRetries).map
        (fun a => min (defaultRetryConfig.baseDelay *
            defaultRetryConfig.backoffMultiplier ^ a)
          defaultRetryConfig.maxDelay) :=
  handleAsyncWithRetry_backoff_delays Nat Unit opFail defaultRetryConfig
    (fun i => i) (fun _ => rfl)

/-- `mapSet` followed by `lookupKey` at the same key yields the new value. -/
theorem lookupKey_mapSet_self (k : String) (v : ThrottleEntry)
    (l : List (String × ThrottleEntry)) :
    lookupKey k (mapSet k v l) = some v := by
  induction l with
  | nil => simp [mapSet, lookupKey]
  | cons hd tl ih =>
      obtain ⟨k₁, v₁⟩ := hd
      by_cases h : k₁ = k <;> simp [mapSet, lookupKey, h, ih]

/-- Saturation of the throttle counter: from a state whose entry for the
message is `⟨k, l⟩`, a run of further calls at nondecreasing times all lying
inside the window `[t, t + throttleWindow]` (with `t ≤ l`) records exactly
`min ts.length (3 - k)` of them — never more than `3 - k`. -/
theorem throttleRun_within_window (msg : String) (t : Nat) :
    ∀ (ts : List Nat) (counts : List (String × ThrottleEntry)) (k l : Nat),
      t ≤ l →
      lookupKey (hashMessage msg) counts = some ⟨k, l⟩ →
      List.Chain (fun a b => a ≤ b ∧ b ≤ t + throttleWindow) l ts →
      (throttleRun msg counts ts).1 = min ts.length (3 - k) := by
  intro ts
  induction ts with
  | nil => intro counts k l _ _ _; simp [throttleRun]
  | cons now rest ih =>
      intro counts k l htl hlook hchain
      cases hchain with
      | cons hrel hchain₁ =>
        obtain ⟨hln, hnw⟩ := hrel
        have hstep : shouldThrottleError counts msg now
            = (decide (3 < k + 1),
                mapSet (hashMessage msg) ⟨k + 1, now⟩ counts) := by
          have hno : ¬ throttleWindow < now - l := by omega
          simp [shouldThrottleError, hlook, hno]
        have hrest := ih (mapSet (hashMessage msg) ⟨k + 1, now⟩ counts)
          (k + 1) now (le_trans htl hln)
          (lookupKey_mapSet_self (hashMessage msg) ⟨k + 1, now⟩ counts) hchain₁
        simp only [throttleRun, hstep, hrest]
        by_cases h3 : 3 < k + 1 <;> simp [h3] <;> omega

/-- C3.  Fixed-window throttling of identical messages in
`errorLogger.logError`: (a) starting from a state with no entry for the
message, a run of calls with that message at nondecreasing times all within
`throttleWindow` (5000 ms) of the first call records exactly
`min (n + 1) 3` of the `n + 1` calls — at most 3 per window; (b) once a full
window has elapsed since the message was last seen, `shouldThrottleError`
answers `false` again and resets the count to 1, so the message is recorded
again. -/
theorem errorLogger_throttle_cap_and_reset :
    (∀ (msg : String) (t : Nat) (ts : List Nat),
        List.Chain (fun a b => a ≤ b ∧ b ≤ t + throttleWindow) t ts →
        (throttleRun msg [] (t :: ts)).1 = min (ts.length + 1) 3) ∧
    (∀ (msg : String) (counts : List (String × ThrottleEntry))
        (k l now : Nat),
        lookupKey (hashMessage msg) counts = some ⟨k, l⟩ →
        l + throttleWindow < now →
        shouldThrottleError counts msg now
          = (false, mapSet (hashMessage msg) ⟨1, now⟩ counts)) := by
  constructor
  · intro msg t ts hchain
    have hfirst : shouldThrottleError [] msg t
        = (false, mapSet (hashMessage msg) ⟨1, t⟩ []) := by
      simp [shouldThrottleError, lookupKey, mapSet]
    have hrest := throttleRun_within_window msg t ts
      (mapSet (hashMessage msg) ⟨1, t⟩ []) 1 t le_rfl
      (lookupKey_mapSet_self (hashMessage msg) ⟨1, t⟩ []) hchain
    simp only [throttleRun, hfirst, hrest]
    simp only [Bool.false_eq_true, if_false]
    omega
  · intro msg counts k l now hlook hgap
    have hyes : throttleWindow < now - l := by omega
    simp [shouldThrottleError, hlook, hyes]

/-- Witness for C3: five calls with message "x" all at time 0 record exactly
`min 5 3 = 3` entries, and with the counter at 3 last seen at time 0, a call
at time 6000 (a full window later) is recorded again with the count reset
to 1. -/
theorem errorLogger_throttle_cap_and_reset_witness :
    (throttleRun "x" [] [0, 0, 0, 0, 0]).1 = min 5 3 ∧
    shouldThrottleError [(hashMessage "x", ⟨3, 0⟩)] "x" 6000
      = (false, mapSet (hashMessage "x") ⟨1, 6000⟩
          [(hashMessage "x", ⟨3, 0⟩)]) :=
  ⟨errorLogger_throttle_cap_and_reset.1 "x" 0 [0, 0, 0, 0]
     (by norm_num [List.chain_cons, throttleWindow]),
   errorLogger_throttle_cap_and_reset.2 "x" [(hashMessage "x", ⟨3, 0⟩)] 3 0
     6000 (by decide) (by decide)⟩

/-- C4.  The error queue is a capped FIFO buffer: every `logError` call
preserves the bound of `maxQueueSize` (100) entries, and `recordError`
appends the new entry at the tail — keeping every existing entry in order —
when the queue is below the cap, and evicts exactly the oldest (head) entry
when the queue is full. -/
theorem errorQueue_capped_fifo :
    (∀ (e : JSError) (c : ErrorCategory) (s : ErrorSeverity) (now : Nat)
        (rand : String) (st : ErrorLoggerState),
        st.errorQueue.length ≤ maxQueueSize →
        (logError e c s now rand st).2.errorQueue.length ≤ maxQueueSize) ∧
    (∀ (q : List StructuredError) (entry : StructuredError),
        q.length < maxQueueSize → recordError q entry = q ++ [entry]) ∧
    (∀ (q : List StructuredError) (entry : StructuredError),
        q.length = maxQueueSize → recordError q entry = q.tail ++ [entry]) := by
  have hlen : ∀ (q : List StructuredError) (entry : StructuredError),
      q.length ≤ maxQueueSize → (recordError q entry).length ≤ maxQueueSize := by
    intro q entry hq
    have hl : (q ++ [entry]).length = q.length + 1 := by simp
    simp only [recordError]
    by_cases h : maxQueueSize < (q ++ [entry]).length
    · rw [if_pos h]
      have ht : ((q ++ [entry]).tail).length = (q ++ [entry]).length - 1 :=
        List.length_tail _
      omega
    · rw [if_neg h]
      omega
  refine ⟨?_, ?_, ?_⟩
  · intro e c s now rand st hst
    unfold logError
    by_cases h : (shouldThrottleError st.errorCounts e.message now).1 <;>
      simp only [h, if_true, if_false, Bool.false_eq_true]
    · exact hst
    · exact hlen st.errorQueue _ hst
  · intro q entry hq
    have hl : (q ++ [entry]).length = q.length + 1 := by simp
    have h : ¬ maxQueueSize < (q ++ [entry]).length := by rw [hl]; omega
    simp only [recordError]
    rw [if_neg h]
  · intro q entry hq
    cases q with
    | nil => simp [maxQueueSize] at hq
    | cons a rest =>
        have hq₁ : rest.length + 1 = maxQueueSize := by
          simpa using hq
        have h : maxQueueSize < ((a :: rest) ++ [entry]).length := by
          have hl : ((a :: rest) ++ [entry]).length = rest.length + 2 := by
            simp
          rw [hl]
          omega
        simp only [recordError]
        rw [if_pos h]
        rfl

/-- Witness for C4: from the empty queue `logError` keeps the bound; pushing
onto a queue of 99 copies appends; pushing onto a full queue of 100 copies
drops exactly the head. -/
theorem errorQueue_capped_fifo_witness :
    (logError ⟨"E", "boom", "", none⟩ ErrorCategory.UI_ERROR
        ErrorSeverity.MEDIUM 0 "r" initialLoggerState).2.errorQueue.length
      ≤ maxQueueSize ∧
    recordError (List.replicate 99 dummyEntry) dummyEntry
      = List.replicate 99 dummyEntry ++ [dummyEntry] ∧
    recordError (List.replicate 100 dummyEntry) dummyEntry
      = (List.replicate 100 dummyEntry).tail ++ [dummyEntry] :=
  ⟨errorQueue_capped_fifo.1 ⟨"E", "boom", "", none⟩ ErrorCategory.UI_ERROR
     ErrorSeverity.MEDIUM 0 "r" initialLoggerState (by decide),
   errorQueue_capped_fifo.2.1 (List.replicate 99 dummyEntry) dummyEntry
     (by simp [maxQueueSize]),
   errorQueue_capped_fifo.2.2 (List.replicate 100 dummyEntry) dummyEntry
     (by simp [maxQueueSize])⟩

/-- C8.  `logError` always returns the freshly generated id
`err_<timestamp>_<random>` — a non-empty string — whether or not the call is
throttled, and a throttled call leaves the error queue exactly unchanged, so
the return value alone does not distinguish a throttled call from a recorded
one. -/
theorem logError_fresh_id_and_throttle_frame :
    ∀ (e : JSError) (c : ErrorCategory) (s : ErrorSeverity) (now : Nat)
      (rand : String) (st : ErrorLoggerState),
      (logError e c s now rand st).1 = generateErrorId now rand ∧
      generateErrorId now rand ≠ "" ∧
      ((shouldThrottleError st.errorCounts e.message now).1 = true →
        (logError e c s now rand st).2.errorQueue = st.errorQueue) := by
  intro e c s now rand st
  refine ⟨?_, ?_, ?_⟩
  · unfold logError
    by_cases h : (shouldThrottleError st.errorCounts e.message now).1 <;>
      simp [h]
  · intro hcontra
    have hlen := congrArg String.length hcontra
    have h4 : ("err_" : String).length = 4 := rfl
    simp [generateErrorId, String.length_append, h4] at hlen
  · intro hthr
    unfold logError
    simp [hthr]

/-- Witness for C8: with the counter for "boom" already at 3 inside the
window, the call at time 5 is throttled, yet it returns `err_5_r` and leaves
the one-entry queue untouched. -/
theorem logError_fresh_id_and_throttle_frame_witness :
    (logError ⟨"E", "boom", "", none⟩ ErrorCategory.UI_ERROR
        ErrorSeverity.MEDIUM 5 "r" throttledState).1 = generateErrorId 5 "r" ∧
    generateErrorId 5 "r" ≠ "" ∧
    (logError ⟨"E", "boom", "", none⟩ ErrorCategory.UI_ERROR
        ErrorSeverity.MEDIUM 5 "r" throttledState).2.errorQueue
      = throttledState.errorQueue :=
  have h := logError_fresh_id_and_throttle_frame ⟨"E", "boom", "", none⟩
    ErrorCategory.UI_ERROR ErrorSeverity.MEDIUM 5 "r" throttledState
  ⟨h.1, h.2.1, h.2.2 (by decide)⟩

/-- The per-category accumulation of `getErrorStats` distributes over the
fold: folding one more entry adds exactly 1 to the total across the five
categories. -/
theorem categoriesCount_sum (q : List StructuredError) :
    ∀ acc : ErrorCategory → Nat,
      (allCategories.map
        (q.foldl
          (fun acc₁ e => fun c =>
            if c = e.category then acc₁ c + 1 else acc₁ c) acc)).sum
        = (allCategories.map acc).sum + q.length := by
  induction q with
  | nil => intro acc; simp
  | cons e q ih =>
      intro acc
      rw [List.foldl_cons, ih]
      have hone : (allCategories.map
          (fun c => if c = e.category then acc c + 1 else acc c)).sum
          = (allCategories.map acc).sum + 1 := by
        rcases he : e.category <;> simp [allCategories, he] <;> omega
      rw [hone]
      simp [List.length_cons]
      omega

/-- C9.  `getErrorStats` is consistent with the queue: `totalErrors` is the
number of queued entries, and the per-category counts partition it — their
sum over all categories equals `totalErrors`. -/
theorem getErrorStats_consistent :
    ∀ q : List StructuredError,
      (getErrorStats q).totalErrors = q.length ∧
      (allCategories.map (getErrorStats q).categories).sum
        = (getErrorStats q).totalErrors := by
  intro q
  refine ⟨rfl, ?_⟩
  show (allCategories.map (categoriesCount q)).sum = q.length
  unfold categoriesCount
  rw [categoriesCount_sum q (fun _ => 0)]
  simp [allCategories]

/-- C5.  `authService.formatError` is a static lookup keyed by the error's
code (falling back to its name when the code is absent): a known provider
code yields the mapped user-facing string; for every other error the error's
own message is returned when non-empty, and the generic fallback otherwise.
Concrete known codes behave as mapped. -/
theorem formatError_lookup_spec :
    (∀ (e : JSError) (m : String),
        errorMessages (effectiveCode e) = some m → formatError e = m) ∧
    (∀ e : JSError, errorMessages (effectiveCode e) = none →
        e.message ≠ "" → formatError e = e.message) ∧
    (∀ e : JSError, errorMessages (effectiveCode e) = none →
        e.message = "" → formatError e = fallbackMessage) ∧
    formatError ⟨"UserNotFoundException", "", "", none⟩
      = "User not found. Please check your email and try again." ∧
    formatError ⟨"NotAuthorizedException", "", "", none⟩
      = "Incorrect email or password." ∧
    formatError ⟨"Error", "socket hang up", "CodeMismatchException", none⟩
      = "Invalid verification code. Please try again." := by
  refine ⟨?_, ?_, ?_, rfl, rfl, rfl⟩
  · intro e m hm
    simp [formatError, hm]
  · intro e hnone hne
    simp [formatError, hnone, hne]
  · intro e hnone hempty
    simp [formatError, hnone, hempty]

/-- Witness for C5: a mapped Cognito code, an unknown error with a message,
and an unknown error with an empty message, each at a concrete input. -/
theorem formatError_lookup_spec_witness :
    formatError ⟨"UserNotFoundException", "ignored", "", none⟩
      = "User not found. Please check your email and try again." ∧
    formatError ⟨"TypeError", "boom", "", none⟩ = "boom" ∧
    formatError ⟨"TypeError", "", "", none⟩ = fallbackMessage :=
  ⟨formatError_lookup_spec.1 ⟨"UserNotFoundException", "ignored", "", none⟩ _
     rfl,
   formatError_lookup_spec.2.1 ⟨"TypeError", "boom", "", none⟩ rfl
     (by decide),
   formatError_lookup_spec.2.2.1 ⟨"TypeError", "", "", none⟩ rfl rfl⟩

/-- C6 counterexample.  The claim restricts every logged failure to the four
categories UI, API, Navigation, Performance; but the code's enum has a fifth
member and `setupGlobalHandlers` logs every unhandled rejection and fatal
global error with it: a concrete `logError` call made by the global handler
queues an entry whose category is `UNHANDLED_ERROR`, outside the four. -/
theorem errorCategory_four_only_counterexample :
    globalHandlerCategory ∉ specCategories ∧
    ((logError ⟨"Error", "Unhandled promise rejection", "", none⟩
        globalHandlerCategory ErrorSeverity.HIGH 0 "r"
        initialLoggerState).2.errorQueue.map StructuredError.category)
      = [ErrorCategory.UNHANDLED_ERROR] := by
  constructor
  · decide
  · rfl

/-- C6 amended.  Every failure is tagged with a category drawn from exactly
the FIVE enum members UI, API, Navigation, Performance and Unhandled (the
fifth covering the global handlers), and a severity drawn from exactly low,
medium, high, critical; a `logError` call queues its entry with exactly the
category and severity it was tagged with. -/
theorem errorCategory_five_severity_four :
    (∀ c : ErrorCategory, c ∈ allCategories) ∧
    (∀ s : ErrorSeverity, s ∈ allSeverities) ∧
    allCategories.length = 5 ∧
    allSeverities.length = 4 ∧
    globalHandlerCategory ∈ allCategories := by
  refine ⟨?_, ?_, rfl, rfl, by decide⟩
  · intro c
    cases c <;> decide
  · intro s
    cases s <;> decide

/-- C7 counterexample.  The claim says every `User` field (id, email, name,
verification flag, timestamps) is taken verbatim from the provider's user
record; but `cognitoUserToUser` sets the timestamps from the conversion-time
clock — two conversions of the same provider record yield different
timestamps — and hardcodes `emailVerified = true` though the provider record
carries no such field. -/
theorem cognitoUserToUser_not_verbatim_counterexample :
    (cognitoUserToUser ⟨"alice", "user-1", none⟩
        "2024-01-01T00:00:00Z").createdAt = "2024-01-01T00:00:00Z" ∧
    (cognitoUserToUser ⟨"alice", "user-1", none⟩
        "2025-06-15T12:00:00Z").createdAt = "2025-06-15T12:00:00Z" ∧
    ("2024-01-01T00:00:00Z" : String) ≠ "2025-06-15T12:00:00Z" ∧
    (cognitoUserToUser ⟨"alice", "user-1", none⟩
        "2024-01-01T00:00:00Z").emailVerified = true := by
  refine ⟨rfl, rfl, by decide, rfl⟩

/-- C7 amended.  `cognitoUserToUser` copies `id` verbatim from `userId`,
`email` from `signInDetails?.loginId` (empty string when absent) and `name`
from `username`; but `emailVerified` is the constant `true`, `phoneNumber`
the constant `""`, and both timestamps are the conversion-time clock, not
provider data. -/
theorem cognitoUserToUser_fields :
    ∀ (u : AuthUser) (nowIso : String),
      (cognitoUserToUser u nowIso).id = u.userId ∧
      (cognitoUserToUser u nowIso).email
        = ((u.signInDetails.map SignInDetails.loginId).join).getD "" ∧
      (cognitoUserToUser u nowIso).name = u.username ∧
      (cognitoUserToUser u nowIso).emailVerified = true ∧
      (cognitoUserToUser u nowIso).phoneNumber = "" ∧
      (cognitoUserToUser u nowIso).createdAt = nowIso ∧
      (cognitoUserToUser u nowIso).updatedAt = nowIso := by
  intro u nowIso
  exact ⟨rfl, rfl, rfl, rfl, rfl, rfl, rfl⟩

/-- C10.  `authService.isAuthenticated` and `authService.getCurrentUser`
catch every failure of the underlying provider call: a thrown provider error
yields `false` / `none`, and a successful provider call yields the token
truthiness / the converted user — neither propagates an exception (both are
total functions into `Bool` / `Option User`). -/
theorem authService_never_throws :
    (∀ err : JSError, isAuthenticated (Except.error err) = false) ∧
    (∀ s : AuthSession, isAuthenticated (Except.ok s)
        = ((s.tokens.map AuthTokens.accessToken).join).isSome) ∧
    (∀ (err : JSError) (nowIso : String),
        getCurrentUserService (Except.error err) nowIso = none) ∧
    (∀ (u : AuthUser) (nowIso : String),
        getCurrentUserService (Except.ok u) nowIso
          = some (cognitoUserToUser u nowIso)) :=
  ⟨fun _ => rfl, fun _ => rfl, fun _ _ => rfl, fun _ _ => rfl⟩

